import Mathlib

/-!
Verification of the LIS NetCDF-to-Zarr conversion script
(src/LIS_NetCDF_to_Zarr/lis_netcdf_to_zarr.py).

The numeric semantics of the embedding is exact rational arithmetic (ℚ):
every value in the claims under scrutiny (quarter-degree resolutions,
eighth-degree corners) is exactly representable in the float32/float64
arithmetic of the source, so the rational model agrees with the program on
all inputs the claims touch.

A dataset (xarray.Dataset) is modelled as an attribute mapping plus an
association list from variable name to variable; a variable carries its
data (a list of rationals) and its own attribute mapping.  Python's
round(x, 3) is modelled as decimal rounding half-to-even at 3 places;
numpy.linspace with endpoint=False is modelled by its documented formula
step = (stop - start) / num, values[i] = start + step * i.
-/

/-- An attribute value: either a value Python's float() accepts (modelled by
its exact rational value) or anything float() rejects. -/
inductive AttrValue : Type
  | num (q : ℚ)
  | other
deriving DecidableEq

/-- A dataset variable: its data values and its attribute mapping. -/
structure Var : Type where
  data : List ℚ
  attrs : List (String × AttrValue)
deriving DecidableEq

/-- An xarray.Dataset: global attributes plus named variables (data
variables and coordinates alike). -/
structure Dataset : Type where
  attrs : List (String × AttrValue)
  vars : List (String × Var)
deriving DecidableEq

/-- Failure modes of the grid reconstructor: KeyError on a missing
attribute, ValueError from float() on a non-numeric attribute, KeyError /
rename failure on a missing variable. -/
inductive GridError : Type
  | missingAttr (key : String)
  | nonNumericAttr (key : String)
  | missingVar (key : String)
deriving DecidableEq

/-- The first two constructors are the failures the spec groups under
MissingAttributeError (absent or non-numeric GridDescription scalar). -/
def GridError.isMissingAttribute : GridError → Bool
  | .missingAttr _ => true
  | .nonNumericAttr _ => true
  | .missingVar _ => false

/-- First-match association-list lookup (dict access). -/
def alookup (k : String) : List (String × α) → Option α
  | [] => none
  | (k₁, v) :: rest => if k₁ = k then some v else alookup k rest

/-- float(attrs[k]): KeyError when absent, ValueError when non-numeric. -/
def getNumAttr (attrs : List (String × AttrValue)) (k : String) : Except GridError ℚ :=
  match alookup k attrs with
  | none => .error (.missingAttr k)
  | some (.num q) => .ok q
  | some .other => .error (.nonNumericAttr k)

/-- ds[k]: variable access, KeyError when absent. -/
def getVar (ds : Dataset) (k : String) : Except GridError Var :=
  match alookup k ds.vars with
  | none => .error (.missingVar k)
  | some v => .ok v

/-- Decimal rounding half-to-even of a rational to an integer (the tie rule
of Python's round). -/
def roundHalfEven (q : ℚ) : ℤ :=
  let f := ⌊q⌋
  if q - f < 1 / 2 then f
  else if 1 / 2 < q - f then f + 1
  else if f % 2 = 0 then f else f + 1

/-- round(x, 3): round to 3 decimal places. -/
def round3 (q : ℚ) : ℚ := (roundHalfEven (q * 1000) : ℚ) / 1000

/-- numpy.linspace(start, stop, num, endpoint=False):
step = (stop - start) / num and values[i] = start + step * i. -/
def linspace (start stop : ℚ) (num : ℕ) : List ℚ :=
  (List.range num).map (fun i : ℕ => start + (stop - start) / (num : ℚ) * (i : ℚ))

/-- ds.rename: every binding of key o is rebound under key n. -/
def renameKey (vs : List (String × Var)) (o n : String) : List (String × Var) :=
  match vs with
  | [] => []
  | (k₁, v) :: rest =>
    if k₁ = o then (n, v) :: renameKey rest o n else (k₁, v) :: renameKey rest o n

/-- Replace the value of every binding of key k. -/
def replaceVar (vs : List (String × Var)) (k : String) (v : Var) : List (String × Var) :=
  match vs with
  | [] => []
  | (k₁, w) :: rest =>
    if k₁ = k then (k, v) :: replaceVar rest k v else (k₁, w) :: replaceVar rest k v

/-- assign_coords for one name: replace the variable bound to k (or append
it when absent). -/
def setVar (vs : List (String × Var)) (k : String) (v : Var) : List (String × Var) :=
  if (alookup k vs).isSome then replaceVar vs k v else vs ++ [(k, v)]

/-- ds.name.attrs = a: overwrite the attribute mapping of the variable
bound to k. -/
def setVarAttrs (vs : List (String × Var)) (k : String) (a : List (String × AttrValue)) :
    List (String × Var) :=
  match vs with
  | [] => []
  | (k₁, w) :: rest =>
    if k₁ = k then (k, { w with attrs := a }) :: setVarAttrs rest k a
    else (k₁, w) :: setVarAttrs rest k a

/-- Lines 127-131 of the source: rename lon/lat to orig_lon/orig_lat, then
rename the grid dimensions north_south/east_west to lat/lon. -/
def renamedVars (vs : List (String × Var)) : List (String × Var) :=
  renameKey (renameKey (renameKey (renameKey vs "lon" "orig_lon") "lat" "orig_lat")
    "north_south" "lat") "east_west" "lon"

/-- Line 134 of the source: assign the freshly computed coordinate arrays
as the lat and lon coordinates (a raw numpy array carries an empty
attribute mapping). -/
def assignedVars (vs : List (String × Var)) (latCoord lonCoord : List ℚ) :
    List (String × Var) :=
  setVar (setVar (renamedVars vs) "lat" ⟨latCoord, []⟩) "lon" ⟨lonCoord, []⟩

/-- Lines 127-136 of the source: the renames, the coordinate assignment,
then the copies of the original variables' attributes onto the new
coordinates (ds.lon.attrs = ds.orig_lon.attrs and likewise for lat). -/
def reconVars (vs : List (String × Var)) (latCoord lonCoord : List ℚ) :
    List (String × Var) :=
  let vars₃ := assignedVars vs latCoord lonCoord
  let origLonAttrs := match alookup "orig_lon" vars₃ with
    | some v => v.attrs
    | none => []
  let origLatAttrs := match alookup "orig_lat" vars₃ with
    | some v => v.attrs
    | none => []
  setVarAttrs (setVarAttrs vars₃ "lon" origLonAttrs) "lat" origLatAttrs

/-- add_latlon_coords (lines 87-138 of the source), with the source's
evaluation order: DX, DY, len(ds[east_west]), len(ds[north_south]),
SOUTH_WEST_CORNER_LAT, SOUTH_WEST_CORNER_LON, then the renames (which fail
when lon or lat is absent), the coordinate assignment and the attribute
copies. -/
def add_latlon_coords (ds : Dataset) : Except GridError Dataset :=
  match getNumAttr ds.attrs "DX" with
  | .error e => .error e
  | .ok rawDx =>
    match getNumAttr ds.attrs "DY" with
    | .error e => .error e
    | .ok rawDy =>
      match getVar ds "east_west" with
      | .error e => .error e
      | .ok ewVar =>
        match getVar ds "north_south" with
        | .error e => .error e
        | .ok nsVar =>
          match getNumAttr ds.attrs "SOUTH_WEST_CORNER_LAT" with
          | .error e => .error e
          | .ok rawLat =>
            match getNumAttr ds.attrs "SOUTH_WEST_CORNER_LON" with
            | .error e => .error e
            | .ok rawLon =>
              match getVar ds "lon" with
              | .error e => .error e
              | .ok _ =>
                match getVar ds "lat" with
                | .error e => .error e
                | .ok _ =>
                  let dx := round3 rawDx
                  let dy := round3 rawDy
                  let ewLen := ewVar.data.length
                  let nsLen := nsVar.data.length
                  let llLat := round3 rawLat
                  let llLon := round3 rawLon
                  let urLat := llLat + dy * (nsLen : ℚ)
                  let urLon := llLon + dx * (ewLen : ℚ)
                  let latCoord := linspace llLat urLat nsLen
                  let lonCoord := linspace llLon urLon ewLen
                  .ok { attrs := ds.attrs, vars := reconVars ds.vars latCoord lonCoord }

/-- The data of the variable bound to a given name in the result of a
reconstruction (empty when the reconstruction failed or the name is
absent). -/
def axisData (name : String) (r : Except GridError Dataset) : List ℚ :=
  match r with
  | .ok ds =>
    match alookup name ds.vars with
    | some v => v.data
    | none => []
  | .error _ => []

/-! ### Chunk planner (pangeo_forge_recipes collaborator, modelled from the spec) -/

/-- Fuel-indexed worker for chunkPlan; the fuel only serves structural
recursion and is irrelevant once it dominates the list length. -/
def chunkPlanFuel (k : ℕ) : ℕ → List α → List (List α)
  | _, [] => []
  | 0, _ :: _ => []
  | fuel + 1, x :: rest => (x :: rest.take (k - 1)) :: chunkPlanFuel k fuel (rest.drop (k - 1))

/-- Modelled from the spec: the Chunk Planner contract implemented by the
external pangeo_forge_recipes collaborator (pattern_from_file_sequence and
the inputs_per_chunk argument of XarrayZarrRecipe), whose code is not part
of this repository.  It partitions the ordered input sequence into
consecutive groups of inputs_per_chunk source files, the final group
possibly shorter. -/
def chunkPlan (k : ℕ) (xs : List α) : List (List α) :=
  chunkPlanFuel k xs.length xs

/-- Modelled from the spec: the record offset of group i into the logical
concatenated time axis is the number of records contributed by all earlier
groups (each source file contributes nitems records). -/
def recordOffset (k nitems : ℕ) (xs : List α) (i : ℕ) : ℕ :=
  nitems * (((chunkPlan k xs).map List.length).take i).sum

/-! ### The script's top-level flow -/

/-- Line 78 of the source: input_urls = [protocol + s for s in s3.glob(input_url)]. -/
def input_urls (globMatches : List String) : List String :=
  globMatches.map (fun s => "s3://" ++ s)

/-- Observable events of the conversion driver. -/
inductive RunEvent : Type
  | enumerationError
  | prepareTarget
  | storeChunk (ordinal : ℕ)
  | finalizeTarget
deriving DecidableEq

/-- Lines 77-78 and 184-198 of the source: build the input URL list from
the glob result, group it into chunks, then unconditionally prepare the
target store, store every chunk in order and finalize the target.  No
emptiness check exists anywhere in the script. -/
def scriptRun (globMatches : List String) (inputsPerChunk : ℕ) : List RunEvent :=
  let urls := input_urls globMatches
  let chunks := chunkPlan inputsPerChunk urls
  RunEvent.prepareTarget :: (List.range chunks.length).map RunEvent.storeChunk
    ++ [RunEvent.finalizeTarget]

/-- A small concrete LIS-style frame used to instantiate the general
theorems: half-degree by quarter-degree grid, 3 columns by 2 rows, masked
original coordinates. -/
def dsW : Dataset :=
  { attrs := [("DX", AttrValue.num (1 / 2)), ("DY", AttrValue.num (1 / 4)),
      ("SOUTH_WEST_CORNER_LAT", AttrValue.num 10),
      ("SOUTH_WEST_CORNER_LON", AttrValue.num 20), ("title", AttrValue.other)],
    vars := [("east_west", ⟨[0, 1, 2], []⟩), ("north_south", ⟨[0, 1], []⟩),
      ("lat", ⟨[-9999, -9999], [("units", AttrValue.other)]⟩),
      ("lon", ⟨[-9999, 3], []⟩),
      ("SoilMoist", ⟨[1, 2, 3, 4, 5, 6], []⟩)] }

/-- A variant of dsW with the same grid description and dimension lengths
but different data everywhere (different nodata sentinels, different
payload, extra attribute). -/
def dsW₂ : Dataset :=
  { attrs := [("DX", AttrValue.num (1 / 2)), ("DY", AttrValue.num (1 / 4)),
      ("SOUTH_WEST_CORNER_LAT", AttrValue.num 10),
      ("SOUTH_WEST_CORNER_LON", AttrValue.num 20), ("history", AttrValue.other)],
    vars := [("east_west", ⟨[5, 6, 7], []⟩), ("north_south", ⟨[8, 9], []⟩),
      ("lat", ⟨[0, -1], []⟩), ("lon", ⟨[7, 7], [("axis", AttrValue.other)]⟩),
      ("Rainf", ⟨[9, 9, 9, 9, 9, 9], []⟩)] }

/-- The frame of the end-to-end scenario: quarter-degree global LIS grid,
1440 columns (east_west) by 600 rows (north_south). -/
def dsC2 : Dataset :=
  { attrs := [("DX", AttrValue.num 0.25), ("DY", AttrValue.num 0.25),
      ("SOUTH_WEST_CORNER_LAT", AttrValue.num (-59.875)),
      ("SOUTH_WEST_CORNER_LON", AttrValue.num (-179.875))],
    vars := [("east_west", ⟨List.replicate 1440 0, []⟩),
      ("north_south", ⟨List.replicate 600 0, []⟩),
      ("lat", ⟨[-9999], []⟩), ("lon", ⟨[-9999], []⟩)] }

/-- A frame with positive resolutions (0.0001 degrees) that nevertheless
round to zero at 3 decimal places. -/
def dsC3 : Dataset :=
  { attrs := [("DX", AttrValue.num 0.0001), ("DY", AttrValue.num 0.0001),
      ("SOUTH_WEST_CORNER_LAT", AttrValue.num 0),
      ("SOUTH_WEST_CORNER_LON", AttrValue.num 0)],
    vars := [("east_west", ⟨[0, 0], []⟩), ("north_south", ⟨[0, 0], []⟩),
      ("lat", ⟨[-9999], []⟩), ("lon", ⟨[-9999], []⟩)] }

/-- Whether float(attrs[k]) would succeed: the key is present and its
value numeric. -/
def hasNumericAttr (attrs : List (String × AttrValue)) (k : String) : Bool :=
  match getNumAttr attrs k with
  | .ok _ => true
  | .error _ => false

example : round3 (1 / 4) = 1 / 4 := by norm_num [round3, roundHalfEven]
example : round3 (1 / 10000) = 0 := by norm_num [round3, roundHalfEven]
example : linspace 0 1 2 = [0, 1 / 2] := by norm_num [linspace, List.range_succ]

/-! ### Lookup lemmas for the variable-map operations -/

theorem getVar_ok_iff (ds : Dataset) (k : String) (v : Var) :
    getVar ds k = Except.ok v ↔ alookup k ds.vars = some v := by
  unfold getVar
  cases h : alookup k ds.vars <;> simp

theorem alookup_renameKey_other (vs : List (String × Var)) (k o n : String)
    (hko : k ≠ o) (hkn : k ≠ n) :
    alookup k (renameKey vs o n) = alookup k vs := by
  induction vs with
  | nil => rfl
  | cons p rest ih =>
    obtain ⟨k₁, v⟩ := p
    by_cases h : k₁ = o
    · subst h
      simp [renameKey, alookup, hko.symm, hkn.symm, ih]
    · by_cases hk : k₁ = k
      · simp [renameKey, alookup, h, hk, hko]
      · simp [renameKey, alookup, h, hk, ih]

theorem alookup_renameKey_new (vs : List (String × Var)) (o n : String)
    (hn : alookup n vs = none) :
    alookup n (renameKey vs o n) = alookup o vs := by
  induction vs with
  | nil => rfl
  | cons p rest ih =>
    obtain ⟨k₁, v⟩ := p
    have hk₁n : ¬ k₁ = n := by
      intro h
      simp [alookup, h] at hn
    have hn' : alookup n rest = none := by
      simpa [alookup, hk₁n] using hn
    by_cases h : k₁ = o
    · subst h
      simp [renameKey, alookup, ih hn']
    · simp [renameKey, alookup, h, hk₁n, ih hn']

theorem alookup_replaceVar_self (vs : List (String × Var)) (k : String) (v : Var) :
    alookup k (replaceVar vs k v) = (alookup k vs).map (fun _ => v) := by
  induction vs with
  | nil => rfl
  | cons p rest ih =>
    obtain ⟨k₁, w⟩ := p
    by_cases h : k₁ = k
    · subst h
      simp [replaceVar, alookup]
    · simp [replaceVar, alookup, h, ih]

theorem alookup_replaceVar_other (vs : List (String × Var)) (k k' : String) (v : Var)
    (hkk : k ≠ k') :
    alookup k (replaceVar vs k' v) = alookup k vs := by
  induction vs with
  | nil => rfl
  | cons p rest ih =>
    obtain ⟨k₁, w⟩ := p
    by_cases h : k₁ = k'
    · subst h
      simp [replaceVar, alookup, hkk.symm, ih]
    · by_cases h₂ : k₁ = k
      · simp [replaceVar, alookup, h, h₂, hkk]
      · simp [replaceVar, alookup, h, h₂, ih]

theorem alookup_append_single_self (vs : List (String × Var)) (k : String) (v : Var)
    (h : alookup k vs = none) :
    alookup k (vs ++ [(k, v)]) = some v := by
  induction vs with
  | nil => simp [alookup]
  | cons p rest ih =>
    obtain ⟨k₁, w⟩ := p
    have hk₁ : ¬ k₁ = k := by
      intro hh
      simp [alookup, hh] at h
    have h' : alookup k rest = none := by simpa [alookup, hk₁] using h
    simp [alookup, hk₁, ih h']

theorem alookup_append_single_other (vs : List (String × Var)) (k k' : String) (v : Var)
    (hkk : k ≠ k') :
    alookup k (vs ++ [(k', v)]) = alookup k vs := by
  induction vs with
  | nil => simp [alookup, hkk.symm]
  | cons p rest ih =>
    obtain ⟨k₁, w⟩ := p
    by_cases h₂ : k₁ = k
    · simp [alookup, h₂]
    · simp [alookup, h₂, ih]

theorem alookup_setVar_self (vs : List (String × Var)) (k : String) (v : Var) :
    alookup k (setVar vs k v) = some v := by
  unfold setVar
  cases h : alookup k vs with
  | none => simp [h, alookup_append_single_self vs k v h]
  | some w => simp [h, alookup_replaceVar_self, Option.isSome]

theorem alookup_setVar_other (vs : List (String × Var)) (k k' : String) (v : Var)
    (hkk : k ≠ k') :
    alookup k (setVar vs k' v) = alookup k vs := by
  unfold setVar
  by_cases h : (alookup k' vs).isSome
  · simp [h, alookup_replaceVar_other vs k k' v hkk]
  · simp [h, alookup_append_single_other vs k k' v hkk]

theorem alookup_setVarAttrs_self (vs : List (String × Var)) (k : String)
    (a : List (String × AttrValue)) :
    alookup k (setVarAttrs vs k a)
      = (alookup k vs).map (fun w => { w with attrs := a }) := by
  induction vs with
  | nil => rfl
  | cons p rest ih =>
    obtain ⟨k₁, w⟩ := p
    by_cases h : k₁ = k
    · subst h
      simp [setVarAttrs, alookup]
    · simp [setVarAttrs, alookup, h, ih]

theorem alookup_setVarAttrs_other (vs : List (String × Var)) (k k' : String)
    (a : List (String × AttrValue)) (hkk : k ≠ k') :
    alookup k (setVarAttrs vs k' a) = alookup k vs := by
  induction vs with
  | nil => rfl
  | cons p rest ih =>
    obtain ⟨k₁, w⟩ := p
    by_cases h : k₁ = k'
    · subst h
      simp [setVarAttrs, alookup, hkk.symm, ih]
    · by_cases h₂ : k₁ = k
      · simp [setVarAttrs, alookup, h, h₂, hkk]
      · simp [setVarAttrs, alookup, h, h₂, ih]

/-! ### linspace lemmas -/

theorem linspace_length (a b : ℚ) (n : ℕ) : (linspace a b n).length = n := by
  rw [linspace, List.length_map, List.length_range]

theorem linspace_get (a b : ℚ) (n i : ℕ) (h : i < (linspace a b n).length) :
    (linspace a b n).get ⟨i, h⟩ = a + (b - a) / (n : ℚ) * (i : ℚ) := by
  rw [List.get_eq_getElem]
  show (linspace a b n)[i] = a + (b - a) / (n : ℚ) * (i : ℚ)
  simp only [linspace, List.getElem_map, List.getElem_range]

/-! ### Lookups in the reconstructed variable map -/

theorem alookup_assignedVars_lat (vs : List (String × Var)) (latC lonC : List ℚ) :
    alookup "lat" (assignedVars vs latC lonC) = some ⟨latC, []⟩ := by
  unfold assignedVars
  rw [alookup_setVar_other _ _ _ _ (by decide), alookup_setVar_self]

theorem alookup_assignedVars_lon (vs : List (String × Var)) (latC lonC : List ℚ) :
    alookup "lon" (assignedVars vs latC lonC) = some ⟨lonC, []⟩ := by
  unfold assignedVars
  rw [alookup_setVar_self]

theorem alookup_assignedVars_origLon (vs : List (String × Var)) (latC lonC : List ℚ)
    (lo : Var) (hlo : alookup "lon" vs = some lo)
    (hno : alookup "orig_lon" vs = none) :
    alookup "orig_lon" (assignedVars vs latC lonC) = some lo := by
  unfold assignedVars renamedVars
  rw [alookup_setVar_other _ _ _ _ (by decide), alookup_setVar_other _ _ _ _ (by decide),
    alookup_renameKey_other _ _ _ _ (by decide) (by decide),
    alookup_renameKey_other _ _ _ _ (by decide) (by decide),
    alookup_renameKey_other _ _ _ _ (by decide) (by decide),
    alookup_renameKey_new _ _ _ hno, hlo]

theorem alookup_assignedVars_origLat (vs : List (String × Var)) (latC lonC : List ℚ)
    (la : Var) (hla : alookup "lat" vs = some la)
    (hno : alookup "orig_lat" vs = none) :
    alookup "orig_lat" (assignedVars vs latC lonC) = some la := by
  unfold assignedVars renamedVars
  rw [alookup_setVar_other _ _ _ _ (by decide), alookup_setVar_other _ _ _ _ (by decide),
    alookup_renameKey_other _ _ _ _ (by decide) (by decide),
    alookup_renameKey_other _ _ _ _ (by decide) (by decide),
    alookup_renameKey_new _ _ _
      (by rw [alookup_renameKey_other _ _ _ _ (by decide) (by decide)]; exact hno),
    alookup_renameKey_other _ _ _ _ (by decide) (by decide), hla]

theorem alookup_reconVars_lat (vs : List (String × Var)) (latC lonC : List ℚ)
    (la : Var) (hla : alookup "lat" vs = some la)
    (hno : alookup "orig_lat" vs = none) :
    alookup "lat" (reconVars vs latC lonC) = some ⟨latC, la.attrs⟩ := by
  simp only [reconVars]
  rw [alookup_assignedVars_origLat vs latC lonC la hla hno]
  rw [alookup_setVarAttrs_self,
    alookup_setVarAttrs_other _ _ _ _ (by decide), alookup_assignedVars_lat]
  rfl

theorem alookup_reconVars_lon (vs : List (String × Var)) (latC lonC : List ℚ)
    (lo : Var) (hlo : alookup "lon" vs = some lo)
    (hno : alookup "orig_lon" vs = none) :
    alookup "lon" (reconVars vs latC lonC) = some ⟨lonC, lo.attrs⟩ := by
  simp only [reconVars]
  rw [alookup_assignedVars_origLon vs latC lonC lo hlo hno]
  rw [alookup_setVarAttrs_other _ _ _ _ (by decide), alookup_setVarAttrs_self,
    alookup_assignedVars_lon]
  rfl

theorem alookup_reconVars_origLat (vs : List (String × Var)) (latC lonC : List ℚ)
    (la : Var) (hla : alookup "lat" vs = some la)
    (hno : alookup "orig_lat" vs = none) :
    alookup "orig_lat" (reconVars vs latC lonC) = some la := by
  simp only [reconVars]
  rw [alookup_setVarAttrs_other _ _ _ _ (by decide),
    alookup_setVarAttrs_other _ _ _ _ (by decide),
    alookup_assignedVars_origLat vs latC lonC la hla hno]

theorem alookup_reconVars_origLon (vs : List (String × Var)) (latC lonC : List ℚ)
    (lo : Var) (hlo : alookup "lon" vs = some lo)
    (hno : alookup "orig_lon" vs = none) :
    alookup "orig_lon" (reconVars vs latC lonC) = some lo := by
  simp only [reconVars]
  rw [alookup_setVarAttrs_other _ _ _ _ (by decide),
    alookup_setVarAttrs_other _ _ _ _ (by decide),
    alookup_assignedVars_origLon vs latC lonC lo hlo hno]

/-- Unfolding of a successful reconstruction: when the four grid scalars
are numeric and the four variables are present, add_latlon_coords returns
the dataset whose variables are reconVars applied to the two linspace
axes of the source. -/
theorem add_latlon_coords_eq (ds : Dataset) (qdx qdy qlat qlon : ℚ) (ew ns la lo : Var)
    (hdx : getNumAttr ds.attrs "DX" = .ok qdx)
    (hdy : getNumAttr ds.attrs "DY" = .ok qdy)
    (hew : getVar ds "east_west" = .ok ew)
    (hns : getVar ds "north_south" = .ok ns)
    (hqlat : getNumAttr ds.attrs "SOUTH_WEST_CORNER_LAT" = .ok qlat)
    (hqlon : getNumAttr ds.attrs "SOUTH_WEST_CORNER_LON" = .ok qlon)
    (hlo : getVar ds "lon" = .ok lo)
    (hla : getVar ds "lat" = .ok la) :
    add_latlon_coords ds = .ok
      { attrs := ds.attrs,
        vars := reconVars ds.vars
          (linspace (round3 qlat) (round3 qlat + round3 qdy * (ns.data.length : ℚ))
            ns.data.length)
          (linspace (round3 qlon) (round3 qlon + round3 qdx * (ew.data.length : ℚ))
            ew.data.length) } := by
  unfold add_latlon_coords
  rw [hdx, hdy, hew, hns, hqlat, hqlon, hlo, hla]

theorem linspace_step_get (a d : ℚ) (n i : ℕ) (h : i < (linspace a (a + d * (n : ℚ)) n).length) :
    (linspace a (a + d * (n : ℚ)) n).get ⟨i, h⟩ = a + d * (i : ℚ) := by
  have hn : 0 < n := lt_of_le_of_lt (Nat.zero_le i) (by simpa [linspace_length] using h)
  have hne : (n : ℚ) ≠ 0 := Nat.cast_ne_zero.mpr hn.ne'
  rw [linspace_get]
  have : a + d * (n : ℚ) - a = d * (n : ℚ) := by ring
  rw [this, mul_div_assoc, div_self hne, mul_one]

theorem chunkPlanFuel_irrel (k : ℕ) :
    ∀ (f₁ : ℕ) (f₂ : ℕ) (xs : List α), xs.length ≤ f₁ → xs.length ≤ f₂ →
      chunkPlanFuel k f₁ xs = chunkPlanFuel k f₂ xs := by
  intro f₁
  induction f₁ with
  | zero =>
    intro f₂ xs h₁ _
    have : xs = [] := List.length_eq_zero.mp (Nat.le_zero.mp h₁)
    subst this
    cases f₂ <;> rfl
  | succ f ih =>
    intro f₂ xs h₁ h₂
    cases xs with
    | nil => cases f₂ <;> rfl
    | cons x rest =>
      cases f₂ with
      | zero => exact absurd h₂ (by simp)
      | succ f' =>
        show (x :: rest.take (k - 1)) :: chunkPlanFuel k f (rest.drop (k - 1))
          = (x :: rest.take (k - 1)) :: chunkPlanFuel k f' (rest.drop (k - 1))
        have hd : (rest.drop (k - 1)).length ≤ rest.length := by
          rw [List.length_drop]; omega
        have hr₁ : rest.length ≤ f := by simpa using Nat.succ_le_succ_iff.mp h₁
        have hr₂ : rest.length ≤ f' := by simpa using Nat.succ_le_succ_iff.mp h₂
        rw [ih f' (rest.drop (k - 1)) (le_trans hd hr₁) (le_trans hd hr₂)]

theorem chunkPlan_nil (k : ℕ) : chunkPlan k ([] : List α) = [] := rfl

theorem chunkPlan_cons (k : ℕ) (x : α) (rest : List α) :
    chunkPlan k (x :: rest)
      = (x :: rest.take (k - 1)) :: chunkPlan k (rest.drop (k - 1)) := by
  show chunkPlanFuel k (rest.length + 1) (x :: rest) = _
  show (x :: rest.take (k - 1)) :: chunkPlanFuel k rest.length (rest.drop (k - 1)) = _
  rw [chunkPlan, chunkPlanFuel_irrel k rest.length (rest.drop (k - 1)).length
    (rest.drop (k - 1)) (by rw [List.length_drop]; omega) le_rfl]

theorem chunkPlan_flatten (k : ℕ) :
    ∀ (n : ℕ) (xs : List α), xs.length ≤ n → (chunkPlan k xs).flatten = xs := by
  intro n
  induction n with
  | zero =>
    intro xs h
    have : xs = [] := List.length_eq_zero.mp (Nat.le_zero.mp h)
    subst this
    rfl
  | succ n ih =>
    intro xs h
    cases xs with
    | nil => rfl
    | cons x rest =>
      rw [chunkPlan_cons, List.flatten_cons]
      have hd : (rest.drop (k - 1)).length ≤ n := by
        rw [List.length_drop]
        have : rest.length ≤ n := by simpa using Nat.succ_le_succ_iff.mp h
        omega
      rw [ih (rest.drop (k - 1)) hd]
      simp [List.take_append_drop]

theorem chunkPlan_length (k : ℕ) (hk : 0 < k) :
    ∀ (n : ℕ) (xs : List α), xs.length ≤ n →
      (chunkPlan k xs).length = (xs.length + k - 1) / k := by
  intro n
  induction n with
  | zero =>
    intro xs h
    have : xs = [] := List.length_eq_zero.mp (Nat.le_zero.mp h)
    subst this
    simp [chunkPlan_nil, Nat.div_eq_of_lt (by omega : k - 1 < k)]
  | succ n ih =>
    intro xs h
    cases xs with
    | nil => simp [chunkPlan_nil, Nat.div_eq_of_lt (by omega : k - 1 < k)]
    | cons x rest =>
      rw [chunkPlan_cons, List.length_cons]
      have hrest : rest.length ≤ n := by simpa using Nat.succ_le_succ_iff.mp h
      rw [ih (rest.drop (k - 1)) (by rw [List.length_drop]; omega)]
      rw [List.length_drop, List.length_cons]
      by_cases hcase : k - 1 ≤ rest.length
      · have h₁ : rest.length - (k - 1) + k - 1 = rest.length + 1 - 1 := by omega
        have h₂ : rest.length + 1 + k - 1 = (rest.length + 1 - 1) + k := by omega
        rw [h₁, h₂, Nat.add_div_right _ hk]
      · have h₁ : rest.length - (k - 1) = 0 := by omega
        have h₃ : rest.length + 1 + k - 1 = rest.length + k := by omega
        have h₄ : (rest.length + k) / k = rest.length / k + 1 := Nat.add_div_right _ hk
        have h₅ : rest.length / k = 0 := Nat.div_eq_of_lt (by omega)
        have h₆ : (0 + k - 1) / k = 0 := Nat.div_eq_of_lt (by omega)
        rw [h₁, h₃, h₄, h₅, h₆]

theorem chunkPlan_ne_nil_length (k : ℕ) (ys : List α) (h : ys ≠ []) :
    0 < (chunkPlan k ys).length := by
  cases ys with
  | nil => exact absurd rfl h
  | cons y rest => rw [chunkPlan_cons]; simp

theorem chunkPlan_get_length (k : ℕ) (hk : 0 < k) :
    ∀ (n : ℕ) (xs : List α), xs.length ≤ n →
      ∀ (i : ℕ) (h : i < (chunkPlan k xs).length),
        i + 1 < (chunkPlan k xs).length → ((chunkPlan k xs).get ⟨i, h⟩).length = k := by
  intro n
  induction n with
  | zero =>
    intro xs hlen i h _
    have : xs = [] := List.length_eq_zero.mp (Nat.le_zero.mp hlen)
    subst this
    simp [chunkPlan_nil] at h
  | succ n ih =>
    intro xs hlen i h hsucc
    cases xs with
    | nil => simp [chunkPlan_nil] at h
    | cons x rest =>
      have hrest : rest.length ≤ n := by simpa using Nat.succ_le_succ_iff.mp hlen
      have hd : (rest.drop (k - 1)).length ≤ n := by
        rw [List.length_drop]; omega
      cases i with
      | zero =>
        have hne : (rest.drop (k - 1)) ≠ [] := by
          intro hnil
          rw [chunkPlan_cons] at hsucc
          rw [hnil, chunkPlan_nil] at hsucc
          simp at hsucc
        have hlen₂ : 0 < (rest.drop (k - 1)).length := List.length_pos.mpr hne
        have hge : k - 1 ≤ rest.length := by
          rw [List.length_drop] at hlen₂; omega
        have h₀ : 0 < (chunkPlan k (x :: rest)).length := h
        have : (chunkPlan k (x :: rest)).get ⟨0, h⟩
            = x :: rest.take (k - 1) := by
          have hcons := chunkPlan_cons k x rest
          rw [List.get_eq_getElem]
          simp [hcons]
        rw [this]
        simp [List.length_take]
        omega
      | succ j =>
        have hcons := chunkPlan_cons k x rest
        have hj : j < (chunkPlan k (rest.drop (k - 1))).length := by
          rw [hcons] at h
          simpa using Nat.succ_le_succ_iff.mp h
        have hjsucc : j + 1 < (chunkPlan k (rest.drop (k - 1))).length := by
          rw [hcons] at hsucc
          simpa using Nat.succ_le_succ_iff.mp hsucc
        have : (chunkPlan k (x :: rest)).get ⟨j + 1, h⟩
            = (chunkPlan k (rest.drop (k - 1))).get ⟨j, hj⟩ := by
          rw [List.get_eq_getElem, List.get_eq_getElem]
          simp only [hcons, List.getElem_cons_succ]
        rw [this]
        exact ih (rest.drop (k - 1)) hd j hj hjsucc

theorem chunkPlan_mem_length (k : ℕ) (hk : 0 < k) :
    ∀ (n : ℕ) (xs : List α), xs.length ≤ n →
      ∀ g ∈ chunkPlan k xs, 0 < g.length ∧ g.length ≤ k := by
  intro n
  induction n with
  | zero =>
    intro xs hlen g hg
    have : xs = [] := List.length_eq_zero.mp (Nat.le_zero.mp hlen)
    subst this
    simp [chunkPlan_nil] at hg
  | succ n ih =>
    intro xs hlen g hg
    cases xs with
    | nil => simp [chunkPlan_nil] at hg
    | cons x rest =>
      have hrest : rest.length ≤ n := by simpa using Nat.succ_le_succ_iff.mp hlen
      have hd : (rest.drop (k - 1)).length ≤ n := by rw [List.length_drop]; omega
      rw [chunkPlan_cons] at hg
      rcases List.mem_cons.mp hg with hhead | htail
      · subst hhead
        simp [List.length_take]
        omega
      · exact ih (rest.drop (k - 1)) hd g htail

/-! ### Axis characterization helpers -/

theorem linspace_step_getElemQ (a d : ℚ) (n i : ℕ) (h : i < n) :
    (linspace a (a + d * (n : ℚ)) n)[i]? = some (a + d * (i : ℚ)) := by
  have hlen : i < (linspace a (a + d * (n : ℚ)) n).length := by
    rw [linspace_length]; exact h
  rw [List.getElem?_eq_getElem hlen]
  have hv := linspace_step_get a d n i hlen
  rw [List.get_eq_getElem] at hv
  rw [hv]

theorem axisData_lat_eq (ds : Dataset) (qdx qdy qlat qlon : ℚ) (ew ns la lo : Var)
    (hdx : getNumAttr ds.attrs "DX" = .ok qdx)
    (hdy : getNumAttr ds.attrs "DY" = .ok qdy)
    (hew : getVar ds "east_west" = .ok ew)
    (hns : getVar ds "north_south" = .ok ns)
    (hqlat : getNumAttr ds.attrs "SOUTH_WEST_CORNER_LAT" = .ok qlat)
    (hqlon : getNumAttr ds.attrs "SOUTH_WEST_CORNER_LON" = .ok qlon)
    (hlo : getVar ds "lon" = .ok lo)
    (hla : getVar ds "lat" = .ok la)
    (hnoLat : alookup "orig_lat" ds.vars = none)
    (hnoLon : alookup "orig_lon" ds.vars = none) :
    axisData "lat" (add_latlon_coords ds)
      = linspace (round3 qlat) (round3 qlat + round3 qdy * (ns.data.length : ℚ))
          ns.data.length := by
  rw [add_latlon_coords_eq ds qdx qdy qlat qlon ew ns la lo hdx hdy hew hns hqlat hqlon
    hlo hla]
  simp only [axisData]
  rw [alookup_reconVars_lat ds.vars _ _ la ((getVar_ok_iff ds "lat" la).mp hla) hnoLat]

theorem axisData_lon_eq (ds : Dataset) (qdx qdy qlat qlon : ℚ) (ew ns la lo : Var)
    (hdx : getNumAttr ds.attrs "DX" = .ok qdx)
    (hdy : getNumAttr ds.attrs "DY" = .ok qdy)
    (hew : getVar ds "east_west" = .ok ew)
    (hns : getVar ds "north_south" = .ok ns)
    (hqlat : getNumAttr ds.attrs "SOUTH_WEST_CORNER_LAT" = .ok qlat)
    (hqlon : getNumAttr ds.attrs "SOUTH_WEST_CORNER_LON" = .ok qlon)
    (hlo : getVar ds "lon" = .ok lo)
    (hla : getVar ds "lat" = .ok la)
    (hnoLat : alookup "orig_lat" ds.vars = none)
    (hnoLon : alookup "orig_lon" ds.vars = none) :
    axisData "lon" (add_latlon_coords ds)
      = linspace (round3 qlon) (round3 qlon + round3 qdx * (ew.data.length : ℚ))
          ew.data.length := by
  rw [add_latlon_coords_eq ds qdx qdy qlat qlon ew ns la lo hdx hdy hew hns hqlat hqlon
    hlo hla]
  simp only [axisData]
  rw [alookup_reconVars_lon ds.vars _ _ lo ((getVar_ok_iff ds "lon" lo).mp hlo) hnoLon]

/-- C1: for every RasterFrame whose GridDescription supplies numeric DX,
DY, SOUTH_WEST_CORNER_LAT and SOUTH_WEST_CORNER_LON, the reconstruction
attaches a new lat axis whose length is the north_south dimension length
and a new lon axis whose length is the east_west dimension length, with
axis[i] = corner + step * i for every i in [0, length) where corner and
step are first rounded to 3 decimal places; indices stop strictly below
the length, so the upper bound corner + step * length is excluded. -/
theorem C1_grid_reconstruction (ds : Dataset) (qdx qdy qlat qlon : ℚ) (ew ns la lo : Var)
    (hdx : getNumAttr ds.attrs "DX" = .ok qdx)
    (hdy : getNumAttr ds.attrs "DY" = .ok qdy)
    (hew : getVar ds "east_west" = .ok ew)
    (hns : getVar ds "north_south" = .ok ns)
    (hqlat : getNumAttr ds.attrs "SOUTH_WEST_CORNER_LAT" = .ok qlat)
    (hqlon : getNumAttr ds.attrs "SOUTH_WEST_CORNER_LON" = .ok qlon)
    (hlo : getVar ds "lon" = .ok lo)
    (hla : getVar ds "lat" = .ok la)
    (hnoLat : alookup "orig_lat" ds.vars = none)
    (hnoLon : alookup "orig_lon" ds.vars = none) :
    ∃ ds' latv lonv, add_latlon_coords ds = .ok ds' ∧
      getVar ds' "lat" = .ok latv ∧ getVar ds' "lon" = .ok lonv ∧
      latv.data.length = ns.data.length ∧ lonv.data.length = ew.data.length ∧
      (∀ (i : ℕ) (h : i < latv.data.length),
        latv.data.get ⟨i, h⟩ = round3 qlat + round3 qdy * (i : ℚ)) ∧
      (∀ (i : ℕ) (h : i < lonv.data.length),
        lonv.data.get ⟨i, h⟩ = round3 qlon + round3 qdx * (i : ℚ)) := by
  have heq := add_latlon_coords_eq ds qdx qdy qlat qlon ew ns la lo hdx hdy hew hns
    hqlat hqlon hlo hla
  refine ⟨_,
    ⟨linspace (round3 qlat) (round3 qlat + round3 qdy * (ns.data.length : ℚ))
      ns.data.length, la.attrs⟩,
    ⟨linspace (round3 qlon) (round3 qlon + round3 qdx * (ew.data.length : ℚ))
      ew.data.length, lo.attrs⟩, heq, ?_, ?_, ?_, ?_, ?_, ?_⟩
  · rw [getVar_ok_iff]
    exact alookup_reconVars_lat ds.vars _ _ la ((getVar_ok_iff ds "lat" la).mp hla) hnoLat
  · rw [getVar_ok_iff]
    exact alookup_reconVars_lon ds.vars _ _ lo ((getVar_ok_iff ds "lon" lo).mp hlo) hnoLon
  · exact linspace_length _ _ _
  · exact linspace_length _ _ _
  · intro i h
    exact linspace_step_get (round3 qlat) (round3 qdy) ns.data.length i h
  · intro i h
    exact linspace_step_get (round3 qlon) (round3 qdx) ew.data.length i h

/-- Witness for C1 at the concrete frame dsW. -/
theorem C1_grid_reconstruction_witness :
    ∃ ds' latv lonv, add_latlon_coords dsW = .ok ds' ∧
      getVar ds' "lat" = .ok latv ∧ getVar ds' "lon" = .ok lonv ∧
      latv.data.length = 2 ∧ lonv.data.length = 3 ∧
      (∀ (i : ℕ) (h : i < latv.data.length),
        latv.data.get ⟨i, h⟩ = round3 10 + round3 (1 / 4) * (i : ℚ)) ∧
      (∀ (i : ℕ) (h : i < lonv.data.length),
        lonv.data.get ⟨i, h⟩ = round3 20 + round3 (1 / 2) * (i : ℚ)) :=
  C1_grid_reconstruction dsW (1 / 2) (1 / 4) 10 20
    ⟨[0, 1, 2], []⟩ ⟨[0, 1], []⟩ ⟨[-9999, -9999], [("units", AttrValue.other)]⟩
    ⟨[-9999, 3], []⟩ rfl rfl rfl rfl rfl rfl rfl rfl rfl rfl

/-- C4: the reconstruction retains the original lat and lon variables
under the renamed keys orig_lat and orig_lon, with data element-for-element
equal to the originals (in fact the whole variables are kept unchanged). -/
theorem C4_originals_preserved (ds : Dataset) (qdx qdy qlat qlon : ℚ) (ew ns la lo : Var)
    (hdx : getNumAttr ds.attrs "DX" = .ok qdx)
    (hdy : getNumAttr ds.attrs "DY" = .ok qdy)
    (hew : getVar ds "east_west" = .ok ew)
    (hns : getVar ds "north_south" = .ok ns)
    (hqlat : getNumAttr ds.attrs "SOUTH_WEST_CORNER_LAT" = .ok qlat)
    (hqlon : getNumAttr ds.attrs "SOUTH_WEST_CORNER_LON" = .ok qlon)
    (hlo : getVar ds "lon" = .ok lo)
    (hla : getVar ds "lat" = .ok la)
    (hnoLat : alookup "orig_lat" ds.vars = none)
    (hnoLon : alookup "orig_lon" ds.vars = none) :
    ∃ ds' la' lo', add_latlon_coords ds = .ok ds' ∧
      getVar ds' "orig_lat" = .ok la' ∧ getVar ds' "orig_lon" = .ok lo' ∧
      la'.data = la.data ∧ lo'.data = lo.data ∧ la' = la ∧ lo' = lo := by
  have heq := add_latlon_coords_eq ds qdx qdy qlat qlon ew ns la lo hdx hdy hew hns
    hqlat hqlon hlo hla
  refine ⟨_, la, lo, heq, ?_, ?_, rfl, rfl, rfl, rfl⟩
  · rw [getVar_ok_iff]
    exact alookup_reconVars_origLat ds.vars _ _ la
      ((getVar_ok_iff ds "lat" la).mp hla) hnoLat
  · rw [getVar_ok_iff]
    exact alookup_reconVars_origLon ds.vars _ _ lo
      ((getVar_ok_iff ds "lon" lo).mp hlo) hnoLon

/-- Witness for C4 at the concrete frame dsW. -/
theorem C4_originals_preserved_witness :
    ∃ ds' la' lo', add_latlon_coords dsW = .ok ds' ∧
      getVar ds' "orig_lat" = .ok la' ∧ getVar ds' "orig_lon" = .ok lo' ∧
      la'.data = [-9999, -9999] ∧ lo'.data = [-9999, 3] ∧
      la' = ⟨[-9999, -9999], [("units", AttrValue.other)]⟩ ∧ lo' = ⟨[-9999, 3], []⟩ :=
  C4_originals_preserved dsW (1 / 2) (1 / 4) 10 20
    ⟨[0, 1, 2], []⟩ ⟨[0, 1], []⟩ ⟨[-9999, -9999], [("units", AttrValue.other)]⟩
    ⟨[-9999, 3], []⟩ rfl rfl rfl rfl rfl rfl rfl rfl rfl rfl

/-- C7: grid reconstruction is deterministic — two invocations on frames
with identical attribute mappings and identical east_west/north_south
dimension lengths produce identical lat and lon axis values.  (In the
embedding add_latlon_coords is a pure total function, so the absence of
I/O and of mutation of the input or of global state is inherent.) -/
theorem C7_deterministic (ds₁ ds₂ : Dataset) (qdx qdy qlat qlon : ℚ)
    (ew₁ ns₁ la₁ lo₁ ew₂ ns₂ la₂ lo₂ : Var)
    (hattrs : ds₁.attrs = ds₂.attrs)
    (hdx : getNumAttr ds₁.attrs "DX" = .ok qdx)
    (hdy : getNumAttr ds₁.attrs "DY" = .ok qdy)
    (hqlat : getNumAttr ds₁.attrs "SOUTH_WEST_CORNER_LAT" = .ok qlat)
    (hqlon : getNumAttr ds₁.attrs "SOUTH_WEST_CORNER_LON" = .ok qlon)
    (hew₁ : getVar ds₁ "east_west" = .ok ew₁)
    (hns₁ : getVar ds₁ "north_south" = .ok ns₁)
    (hlo₁ : getVar ds₁ "lon" = .ok lo₁)
    (hla₁ : getVar ds₁ "lat" = .ok la₁)
    (hnoLat₁ : alookup "orig_lat" ds₁.vars = none)
    (hnoLon₁ : alookup "orig_lon" ds₁.vars = none)
    (hew₂ : getVar ds₂ "east_west" = .ok ew₂)
    (hns₂ : getVar ds₂ "north_south" = .ok ns₂)
    (hlo₂ : getVar ds₂ "lon" = .ok lo₂)
    (hla₂ : getVar ds₂ "lat" = .ok la₂)
    (hnoLat₂ : alookup "orig_lat" ds₂.vars = none)
    (hnoLon₂ : alookup "orig_lon" ds₂.vars = none)
    (hewlen : ew₁.data.length = ew₂.data.length)
    (hnslen : ns₁.data.length = ns₂.data.length) :
    axisData "lat" (add_latlon_coords ds₁) = axisData "lat" (add_latlon_coords ds₂) ∧
    axisData "lon" (add_latlon_coords ds₁) = axisData "lon" (add_latlon_coords ds₂) := by
  have hdx₂ : getNumAttr ds₂.attrs "DX" = .ok qdx := by rw [← hattrs]; exact hdx
  have hdy₂ : getNumAttr ds₂.attrs "DY" = .ok qdy := by rw [← hattrs]; exact hdy
  have hqlat₂ : getNumAttr ds₂.attrs "SOUTH_WEST_CORNER_LAT" = .ok qlat := by
    rw [← hattrs]; exact hqlat
  have hqlon₂ : getNumAttr ds₂.attrs "SOUTH_WEST_CORNER_LON" = .ok qlon := by
    rw [← hattrs]; exact hqlon
  constructor
  · rw [axisData_lat_eq ds₁ qdx qdy qlat qlon ew₁ ns₁ la₁ lo₁ hdx hdy hew₁ hns₁ hqlat
      hqlon hlo₁ hla₁ hnoLat₁ hnoLon₁,
      axisData_lat_eq ds₂ qdx qdy qlat qlon ew₂ ns₂ la₂ lo₂ hdx₂ hdy₂ hew₂ hns₂ hqlat₂
      hqlon₂ hlo₂ hla₂ hnoLat₂ hnoLon₂, hnslen]
  · rw [axisData_lon_eq ds₁ qdx qdy qlat qlon ew₁ ns₁ la₁ lo₁ hdx hdy hew₁ hns₁ hqlat
      hqlon hlo₁ hla₁ hnoLat₁ hnoLon₁,
      axisData_lon_eq ds₂ qdx qdy qlat qlon ew₂ ns₂ la₂ lo₂ hdx₂ hdy₂ hew₂ hns₂ hqlat₂
      hqlon₂ hlo₂ hla₂ hnoLat₂ hnoLon₂, hewlen]

/-- Witness for C7: dsW against itself (the attribute mapping and the
dimension lengths trivially agree). -/
theorem C7_deterministic_witness :
    axisData "lat" (add_latlon_coords dsW) = axisData "lat" (add_latlon_coords dsW) ∧
    axisData "lon" (add_latlon_coords dsW) = axisData "lon" (add_latlon_coords dsW) :=
  C7_deterministic dsW dsW (1 / 2) (1 / 4) 10 20
    ⟨[0, 1, 2], []⟩ ⟨[0, 1], []⟩ ⟨[-9999, -9999], [("units", AttrValue.other)]⟩
    ⟨[-9999, 3], []⟩
    ⟨[0, 1, 2], []⟩ ⟨[0, 1], []⟩ ⟨[-9999, -9999], [("units", AttrValue.other)]⟩
    ⟨[-9999, 3], []⟩
    rfl rfl rfl rfl rfl rfl rfl rfl rfl rfl rfl rfl rfl rfl rfl rfl rfl rfl rfl

/-- C10 (implicit): the reconstructed axes depend only on the four
grid-description scalars and the two dimension lengths — two frames that
agree on those produce identical axes regardless of every data value
(masked/nodata originals included) and of every other variable. -/
theorem C10_axes_depend_only_on_grid (ds₁ ds₂ : Dataset) (qdx qdy qlat qlon : ℚ)
    (ew₁ ns₁ la₁ lo₁ ew₂ ns₂ la₂ lo₂ : Var)
    (hdx₁ : getNumAttr ds₁.attrs "DX" = .ok qdx)
    (hdy₁ : getNumAttr ds₁.attrs "DY" = .ok qdy)
    (hqlat₁ : getNumAttr ds₁.attrs "SOUTH_WEST_CORNER_LAT" = .ok qlat)
    (hqlon₁ : getNumAttr ds₁.attrs "SOUTH_WEST_CORNER_LON" = .ok qlon)
    (hdx₂ : getNumAttr ds₂.attrs "DX" = .ok qdx)
    (hdy₂ : getNumAttr ds₂.attrs "DY" = .ok qdy)
    (hqlat₂ : getNumAttr ds₂.attrs "SOUTH_WEST_CORNER_LAT" = .ok qlat)
    (hqlon₂ : getNumAttr ds₂.attrs "SOUTH_WEST_CORNER_LON" = .ok qlon)
    (hew₁ : getVar ds₁ "east_west" = .ok ew₁)
    (hns₁ : getVar ds₁ "north_south" = .ok ns₁)
    (hlo₁ : getVar ds₁ "lon" = .ok lo₁)
    (hla₁ : getVar ds₁ "lat" = .ok la₁)
    (hnoLat₁ : alookup "orig_lat" ds₁.vars = none)
    (hnoLon₁ : alookup "orig_lon" ds₁.vars = none)
    (hew₂ : getVar ds₂ "east_west" = .ok ew₂)
    (hns₂ : getVar ds₂ "north_south" = .ok ns₂)
    (hlo₂ : getVar ds₂ "lon" = .ok lo₂)
    (hla₂ : getVar ds₂ "lat" = .ok la₂)
    (hnoLat₂ : alookup "orig_lat" ds₂.vars = none)
    (hnoLon₂ : alookup "orig_lon" ds₂.vars = none)
    (hewlen : ew₁.data.length = ew₂.data.length)
    (hnslen : ns₁.data.length = ns₂.data.length) :
    axisData "lat" (add_latlon_coords ds₁) = axisData "lat" (add_latlon_coords ds₂) ∧
    axisData "lon" (add_latlon_coords ds₁) = axisData "lon" (add_latlon_coords ds₂) := by
  constructor
  · rw [axisData_lat_eq ds₁ qdx qdy qlat qlon ew₁ ns₁ la₁ lo₁ hdx₁ hdy₁ hew₁ hns₁ hqlat₁
      hqlon₁ hlo₁ hla₁ hnoLat₁ hnoLon₁,
      axisData_lat_eq ds₂ qdx qdy qlat qlon ew₂ ns₂ la₂ lo₂ hdx₂ hdy₂ hew₂ hns₂ hqlat₂
      hqlon₂ hlo₂ hla₂ hnoLat₂ hnoLon₂, hnslen]
  · rw [axisData_lon_eq ds₁ qdx qdy qlat qlon ew₁ ns₁ la₁ lo₁ hdx₁ hdy₁ hew₁ hns₁ hqlat₁
      hqlon₁ hlo₁ hla₁ hnoLat₁ hnoLon₁,
      axisData_lon_eq ds₂ qdx qdy qlat qlon ew₂ ns₂ la₂ lo₂ hdx₂ hdy₂ hew₂ hns₂ hqlat₂
      hqlon₂ hlo₂ hla₂ hnoLat₂ hnoLon₂, hewlen]

/-- Witness for C10: dsW and dsW₂ share the grid scalars and dimension
lengths but none of the data. -/
theorem C10_axes_depend_only_on_grid_witness :
    axisData "lat" (add_latlon_coords dsW) = axisData "lat" (add_latlon_coords dsW₂) ∧
    axisData "lon" (add_latlon_coords dsW) = axisData "lon" (add_latlon_coords dsW₂) :=
  C10_axes_depend_only_on_grid dsW dsW₂ (1 / 2) (1 / 4) 10 20
    ⟨[0, 1, 2], []⟩ ⟨[0, 1], []⟩ ⟨[-9999, -9999], [("units", AttrValue.other)]⟩
    ⟨[-9999, 3], []⟩
    ⟨[5, 6, 7], []⟩ ⟨[8, 9], []⟩ ⟨[0, -1], []⟩ ⟨[7, 7], [("axis", AttrValue.other)]⟩
    rfl rfl rfl rfl rfl rfl rfl rfl rfl rfl rfl rfl rfl rfl rfl rfl rfl rfl rfl rfl
    rfl rfl

/-! ### The end-to-end grid scenario (C2) -/

theorem axisData_lat_dsC2 :
    axisData "lat" (add_latlon_coords dsC2)
      = linspace (round3 (-59.875)) (round3 (-59.875) + round3 0.25 * ((600 : ℕ) : ℚ))
          600 := by
  have h := axisData_lat_eq dsC2 0.25 0.25 (-59.875) (-179.875)
    ⟨List.replicate 1440 0, []⟩ ⟨List.replicate 600 0, []⟩ ⟨[-9999], []⟩ ⟨[-9999], []⟩
    rfl rfl rfl rfl rfl rfl rfl rfl rfl rfl
  rw [h]
  norm_num

theorem axisData_lon_dsC2 :
    axisData "lon" (add_latlon_coords dsC2)
      = linspace (round3 (-179.875)) (round3 (-179.875) + round3 0.25 * ((1440 : ℕ) : ℚ))
          1440 := by
  have h := axisData_lon_eq dsC2 0.25 0.25 (-59.875) (-179.875)
    ⟨List.replicate 1440 0, []⟩ ⟨List.replicate 600 0, []⟩ ⟨[-9999], []⟩ ⟨[-9999], []⟩
    rfl rfl rfl rfl rfl rfl rfl rfl rfl rfl
  rw [h]
  norm_num

/-- C2 counterexample: at the scenario input the reconstructed lon[1439]
is 179.875, not the 179.625 the claim states (and lat[599] is 89.875, not
89.625): the last value is corner + step * (length - 1) = -179.875 +
0.25 * 1439 = 179.875. -/
theorem C2_scenario_counterexample :
    (axisData "lon" (add_latlon_coords dsC2))[1439]? = some (179.875 : ℚ) ∧
    (axisData "lat" (add_latlon_coords dsC2))[599]? = some (89.875 : ℚ) ∧
    (179.875 : ℚ) ≠ 179.625 ∧ (89.875 : ℚ) ≠ 89.625 := by
  refine ⟨?_, ?_, by norm_num, by norm_num⟩
  · rw [axisData_lon_dsC2,
      linspace_step_getElemQ (round3 (-179.875)) (round3 0.25) 1440 1439 (by norm_num)]
    norm_num [round3, roundHalfEven]
  · rw [axisData_lat_dsC2,
      linspace_step_getElemQ (round3 (-59.875)) (round3 0.25) 600 599 (by norm_num)]
    norm_num [round3, roundHalfEven]

/-- C2 amended: the scenario values actually produced are lon[0] =
-179.875, lon[1439] = 179.875, lat[0] = -59.875 and lat[599] = 89.875. -/
theorem C2_scenario_amended :
    (axisData "lon" (add_latlon_coords dsC2))[0]? = some (-179.875 : ℚ) ∧
    (axisData "lon" (add_latlon_coords dsC2))[1439]? = some (179.875 : ℚ) ∧
    (axisData "lat" (add_latlon_coords dsC2))[0]? = some (-59.875 : ℚ) ∧
    (axisData "lat" (add_latlon_coords dsC2))[599]? = some (89.875 : ℚ) := by
  refine ⟨?_, ?_, ?_, ?_⟩
  · rw [axisData_lon_dsC2,
      linspace_step_getElemQ (round3 (-179.875)) (round3 0.25) 1440 0 (by norm_num)]
    norm_num [round3, roundHalfEven]
  · rw [axisData_lon_dsC2,
      linspace_step_getElemQ (round3 (-179.875)) (round3 0.25) 1440 1439 (by norm_num)]
    norm_num [round3, roundHalfEven]
  · rw [axisData_lat_dsC2,
      linspace_step_getElemQ (round3 (-59.875)) (round3 0.25) 600 0 (by norm_num)]
    norm_num [round3, roundHalfEven]
  · rw [axisData_lat_dsC2,
      linspace_step_getElemQ (round3 (-59.875)) (round3 0.25) 600 599 (by norm_num)]
    norm_num [round3, roundHalfEven]

/-! ### Monotonicity of the reconstructed axes (C3) -/

/-- C3 counterexample: at dsC3 the resolutions are positive (0.0001) and
the corners finite, yet rounding to 3 decimals turns the step into 0 and
the produced lat axis is the constant [0, 0] — not strictly increasing. -/
theorem C3_counterexample :
    getNumAttr dsC3.attrs "DX" = .ok 0.0001 ∧
    getNumAttr dsC3.attrs "DY" = .ok 0.0001 ∧
    (0 : ℚ) < 0.0001 ∧
    axisData "lat" (add_latlon_coords dsC3) = [0, 0] ∧
    ¬ List.Chain' (fun a b : ℚ => a < b) (axisData "lat" (add_latlon_coords dsC3)) := by
  have hax : axisData "lat" (add_latlon_coords dsC3) = [0, 0] := by
    have h := axisData_lat_eq dsC3 0.0001 0.0001 0 0
      ⟨[0, 0], []⟩ ⟨[0, 0], []⟩ ⟨[-9999], []⟩ ⟨[-9999], []⟩
      rfl rfl rfl rfl rfl rfl rfl rfl rfl rfl
    rw [h]
    norm_num [linspace, List.range_succ, round3, roundHalfEven]
  refine ⟨rfl, rfl, by norm_num, hax, ?_⟩
  rw [hax]
  simp

/-- C3 amended: for every frame whose four grid scalars are numeric, whose
resolutions are still positive after rounding to 3 decimals and whose
dimension lengths are positive, both axes are strictly increasing with
constant step equal to the rounded resolution, the first element is the
rounded corner and the last is corner + step * (length - 1). -/
theorem C3_axes_monotone (ds : Dataset) (qdx qdy qlat qlon : ℚ) (ew ns la lo : Var)
    (hdx : getNumAttr ds.attrs "DX" = .ok qdx)
    (hdy : getNumAttr ds.attrs "DY" = .ok qdy)
    (hew : getVar ds "east_west" = .ok ew)
    (hns : getVar ds "north_south" = .ok ns)
    (hqlat : getNumAttr ds.attrs "SOUTH_WEST_CORNER_LAT" = .ok qlat)
    (hqlon : getNumAttr ds.attrs "SOUTH_WEST_CORNER_LON" = .ok qlon)
    (hlo : getVar ds "lon" = .ok lo)
    (hla : getVar ds "lat" = .ok la)
    (hnoLat : alookup "orig_lat" ds.vars = none)
    (hnoLon : alookup "orig_lon" ds.vars = none)
    (hdxpos : 0 < round3 qdx) (hdypos : 0 < round3 qdy)
    (hnspos : 0 < ns.data.length) (hewpos : 0 < ew.data.length) :
    ∃ ds' latv lonv, add_latlon_coords ds = .ok ds' ∧
      getVar ds' "lat" = .ok latv ∧ getVar ds' "lon" = .ok lonv ∧
      latv.data.length = ns.data.length ∧ lonv.data.length = ew.data.length ∧
      (∀ (i j : ℕ) (hi : i < latv.data.length) (hj : j < latv.data.length), i < j →
        latv.data.get ⟨i, hi⟩ < latv.data.get ⟨j, hj⟩) ∧
      (∀ (i j : ℕ) (hi : i < lonv.data.length) (hj : j < lonv.data.length), i < j →
        lonv.data.get ⟨i, hi⟩ < lonv.data.get ⟨j, hj⟩) ∧
      (∀ (i : ℕ) (h : i + 1 < latv.data.length),
        latv.data.get ⟨i + 1, h⟩ - latv.data.get ⟨i, Nat.lt_of_succ_lt h⟩ = round3 qdy) ∧
      (∀ (i : ℕ) (h : i + 1 < lonv.data.length),
        lonv.data.get ⟨i + 1, h⟩ - lonv.data.get ⟨i, Nat.lt_of_succ_lt h⟩ = round3 qdx) ∧
      latv.data[0]? = some (round3 qlat) ∧
      latv.data[ns.data.length - 1]?
        = some (round3 qlat + round3 qdy * ((ns.data.length - 1 : ℕ) : ℚ)) ∧
      lonv.data[0]? = some (round3 qlon) ∧
      lonv.data[ew.data.length - 1]?
        = some (round3 qlon + round3 qdx * ((ew.data.length - 1 : ℕ) : ℚ)) := by
  have heq := add_latlon_coords_eq ds qdx qdy qlat qlon ew ns la lo hdx hdy hew hns
    hqlat hqlon hlo hla
  refine ⟨_,
    ⟨linspace (round3 qlat) (round3 qlat + round3 qdy * (ns.data.length : ℚ))
      ns.data.length, la.attrs⟩,
    ⟨linspace (round3 qlon) (round3 qlon + round3 qdx * (ew.data.length : ℚ))
      ew.data.length, lo.attrs⟩, heq, ?_, ?_, linspace_length _ _ _, linspace_length _ _ _,
    ?_, ?_, ?_, ?_, ?_, ?_, ?_, ?_⟩
  · rw [getVar_ok_iff]
    exact alookup_reconVars_lat ds.vars _ _ la ((getVar_ok_iff ds "lat" la).mp hla) hnoLat
  · rw [getVar_ok_iff]
    exact alookup_reconVars_lon ds.vars _ _ lo ((getVar_ok_iff ds "lon" lo).mp hlo) hnoLon
  · intro i j hi hj hij
    rw [linspace_step_get (round3 qlat) (round3 qdy) ns.data.length i hi,
      linspace_step_get (round3 qlat) (round3 qdy) ns.data.length j hj]
    exact add_lt_add_left (mul_lt_mul_of_pos_left (Nat.cast_lt.mpr hij) hdypos) _
  · intro i j hi hj hij
    rw [linspace_step_get (round3 qlon) (round3 qdx) ew.data.length i hi,
      linspace_step_get (round3 qlon) (round3 qdx) ew.data.length j hj]
    exact add_lt_add_left (mul_lt_mul_of_pos_left (Nat.cast_lt.mpr hij) hdxpos) _
  · intro i h
    rw [linspace_step_get (round3 qlat) (round3 qdy) ns.data.length (i + 1) h,
      linspace_step_get (round3 qlat) (round3 qdy) ns.data.length i (Nat.lt_of_succ_lt h)]
    push_cast
    ring
  · intro i h
    rw [linspace_step_get (round3 qlon) (round3 qdx) ew.data.length (i + 1) h,
      linspace_step_get (round3 qlon) (round3 qdx) ew.data.length i (Nat.lt_of_succ_lt h)]
    push_cast
    ring
  · have h0 := linspace_step_getElemQ (round3 qlat) (round3 qdy) ns.data.length 0 hnspos
    simpa using h0
  · exact linspace_step_getElemQ (round3 qlat) (round3 qdy) ns.data.length
      (ns.data.length - 1) (by omega)
  · have h0 := linspace_step_getElemQ (round3 qlon) (round3 qdx) ew.data.length 0 hewpos
    simpa using h0
  · exact linspace_step_getElemQ (round3 qlon) (round3 qdx) ew.data.length
      (ew.data.length - 1) (by omega)

/-- Witness for the amended C3 at the concrete frame dsW. -/
theorem C3_axes_monotone_witness :
    ∃ ds' latv lonv, add_latlon_coords dsW = .ok ds' ∧
      getVar ds' "lat" = .ok latv ∧ getVar ds' "lon" = .ok lonv ∧
      latv.data.length = 2 ∧ lonv.data.length = 3 ∧
      (∀ (i j : ℕ) (hi : i < latv.data.length) (hj : j < latv.data.length), i < j →
        latv.data.get ⟨i, hi⟩ < latv.data.get ⟨j, hj⟩) ∧
      (∀ (i j : ℕ) (hi : i < lonv.data.length) (hj : j < lonv.data.length), i < j →
        lonv.data.get ⟨i, hi⟩ < lonv.data.get ⟨j, hj⟩) ∧
      (∀ (i : ℕ) (h : i + 1 < latv.data.length),
        latv.data.get ⟨i + 1, h⟩ - latv.data.get ⟨i, Nat.lt_of_succ_lt h⟩
          = round3 (1 / 4)) ∧
      (∀ (i : ℕ) (h : i + 1 < lonv.data.length),
        lonv.data.get ⟨i + 1, h⟩ - lonv.data.get ⟨i, Nat.lt_of_succ_lt h⟩
          = round3 (1 / 2)) ∧
      latv.data[0]? = some (round3 10) ∧
      latv.data[2 - 1]? = some (round3 10 + round3 (1 / 4) * ((2 - 1 : ℕ) : ℚ)) ∧
      lonv.data[0]? = some (round3 20) ∧
      lonv.data[3 - 1]? = some (round3 20 + round3 (1 / 2) * ((3 - 1 : ℕ) : ℚ)) :=
  C3_axes_monotone dsW (1 / 2) (1 / 4) 10 20
    ⟨[0, 1, 2], []⟩ ⟨[0, 1], []⟩ ⟨[-9999, -9999], [("units", AttrValue.other)]⟩
    ⟨[-9999, 3], []⟩ rfl rfl rfl rfl rfl rfl rfl rfl rfl rfl
    (by norm_num [round3, roundHalfEven]) (by norm_num [round3, roundHalfEven])
    (by norm_num) (by norm_num)

/-! ### Presence and numeric-ness of the grid scalars (C5) -/

theorem getNumAttr_ok_of_hasNumeric (attrs : List (String × AttrValue)) (k : String)
    (h : hasNumericAttr attrs k = true) : ∃ q, getNumAttr attrs k = .ok q := by
  revert h
  unfold hasNumericAttr
  cases hg : getNumAttr attrs k with
  | ok q => intro _; exact ⟨q, rfl⟩
  | error e => simp

theorem getNumAttr_fail_of_not_hasNumeric (attrs : List (String × AttrValue)) (k : String)
    (h : hasNumericAttr attrs k = false) :
    ∃ e, getNumAttr attrs k = .error e ∧ e.isMissingAttribute = true := by
  revert h
  unfold hasNumericAttr
  cases hg : getNumAttr attrs k with
  | ok q => simp
  | error e =>
    intro _
    refine ⟨e, rfl, ?_⟩
    unfold getNumAttr at hg
    cases ha : alookup k attrs with
    | none =>
      rw [ha] at hg
      cases hg
      rfl
    | some v =>
      cases v with
      | num q =>
        rw [ha] at hg
        cases hg
      | other =>
        rw [ha] at hg
        cases hg
        rfl

/-- C5: on a frame that carries its four structural variables, the
reconstruction fails with a MissingAttributeError-class error (KeyError or
float ValueError) if and only if one of the four GridDescription scalars
is absent or non-numeric; when all four are present and numeric it
succeeds. -/
theorem C5_missing_attribute_iff (ds : Dataset) (ew ns la lo : Var)
    (hew : getVar ds "east_west" = .ok ew)
    (hns : getVar ds "north_south" = .ok ns)
    (hlo : getVar ds "lon" = .ok lo)
    (hla : getVar ds "lat" = .ok la) :
    ((∃ e, add_latlon_coords ds = .error e ∧ e.isMissingAttribute = true) ↔
      ¬ (hasNumericAttr ds.attrs "DX" = true ∧ hasNumericAttr ds.attrs "DY" = true ∧
        hasNumericAttr ds.attrs "SOUTH_WEST_CORNER_LAT" = true ∧
        hasNumericAttr ds.attrs "SOUTH_WEST_CORNER_LON" = true)) ∧
    ((hasNumericAttr ds.attrs "DX" = true ∧ hasNumericAttr ds.attrs "DY" = true ∧
      hasNumericAttr ds.attrs "SOUTH_WEST_CORNER_LAT" = true ∧
      hasNumericAttr ds.attrs "SOUTH_WEST_CORNER_LON" = true) →
      ∃ ds', add_latlon_coords ds = .ok ds') := by
  have hsuccess : (hasNumericAttr ds.attrs "DX" = true ∧ hasNumericAttr ds.attrs "DY" = true ∧
      hasNumericAttr ds.attrs "SOUTH_WEST_CORNER_LAT" = true ∧
      hasNumericAttr ds.attrs "SOUTH_WEST_CORNER_LON" = true) →
      ∃ ds', add_latlon_coords ds = .ok ds' := by
    rintro ⟨h₁, h₂, h₃, h₄⟩
    obtain ⟨qdx, hdx⟩ := getNumAttr_ok_of_hasNumeric ds.attrs "DX" h₁
    obtain ⟨qdy, hdy⟩ := getNumAttr_ok_of_hasNumeric ds.attrs "DY" h₂
    obtain ⟨qlat, hqlat⟩ := getNumAttr_ok_of_hasNumeric ds.attrs "SOUTH_WEST_CORNER_LAT" h₃
    obtain ⟨qlon, hqlon⟩ := getNumAttr_ok_of_hasNumeric ds.attrs "SOUTH_WEST_CORNER_LON" h₄
    exact ⟨_, add_latlon_coords_eq ds qdx qdy qlat qlon ew ns la lo hdx hdy hew hns
      hqlat hqlon hlo hla⟩
  refine ⟨⟨?_, ?_⟩, hsuccess⟩
  · rintro ⟨e, he, _⟩ hall
    obtain ⟨ds', hok⟩ := hsuccess hall
    rw [hok] at he
    cases he
  · intro hnall
    by_cases h₁ : hasNumericAttr ds.attrs "DX" = true
    · obtain ⟨qdx, hdx⟩ := getNumAttr_ok_of_hasNumeric ds.attrs "DX" h₁
      by_cases h₂ : hasNumericAttr ds.attrs "DY" = true
      · obtain ⟨qdy, hdy⟩ := getNumAttr_ok_of_hasNumeric ds.attrs "DY" h₂
        by_cases h₃ : hasNumericAttr ds.attrs "SOUTH_WEST_CORNER_LAT" = true
        · obtain ⟨qlat, hqlat⟩ :=
            getNumAttr_ok_of_hasNumeric ds.attrs "SOUTH_WEST_CORNER_LAT" h₃
          by_cases h₄ : hasNumericAttr ds.attrs "SOUTH_WEST_CORNER_LON" = true
          · exact absurd ⟨h₁, h₂, h₃, h₄⟩ hnall
          · obtain ⟨e, he, hme⟩ := getNumAttr_fail_of_not_hasNumeric ds.attrs
              "SOUTH_WEST_CORNER_LON" (Bool.eq_false_iff.mpr h₄)
            refine ⟨e, ?_, hme⟩
            unfold add_latlon_coords
            rw [hdx, hdy, hew, hns, hqlat, he]
        · obtain ⟨e, he, hme⟩ := getNumAttr_fail_of_not_hasNumeric ds.attrs
            "SOUTH_WEST_CORNER_LAT" (Bool.eq_false_iff.mpr h₃)
          refine ⟨e, ?_, hme⟩
          unfold add_latlon_coords
          rw [hdx, hdy, hew, hns, he]
      · obtain ⟨e, he, hme⟩ := getNumAttr_fail_of_not_hasNumeric ds.attrs "DY"
          (Bool.eq_false_iff.mpr h₂)
        refine ⟨e, ?_, hme⟩
        unfold add_latlon_coords
        rw [hdx, he]
    · obtain ⟨e, he, hme⟩ := getNumAttr_fail_of_not_hasNumeric ds.attrs "DX"
        (Bool.eq_false_iff.mpr h₁)
      refine ⟨e, ?_, hme⟩
      unfold add_latlon_coords
      rw [he]

/-- Witness for C5 at the concrete frame dsW (all four scalars present and
numeric). -/
theorem C5_missing_attribute_iff_witness :
    ((∃ e, add_latlon_coords dsW = .error e ∧ e.isMissingAttribute = true) ↔
      ¬ (hasNumericAttr dsW.attrs "DX" = true ∧ hasNumericAttr dsW.attrs "DY" = true ∧
        hasNumericAttr dsW.attrs "SOUTH_WEST_CORNER_LAT" = true ∧
        hasNumericAttr dsW.attrs "SOUTH_WEST_CORNER_LON" = true)) ∧
    ((hasNumericAttr dsW.attrs "DX" = true ∧ hasNumericAttr dsW.attrs "DY" = true ∧
      hasNumericAttr dsW.attrs "SOUTH_WEST_CORNER_LAT" = true ∧
      hasNumericAttr dsW.attrs "SOUTH_WEST_CORNER_LON" = true) →
      ∃ ds', add_latlon_coords dsW = .ok ds') :=
  C5_missing_attribute_iff dsW ⟨[0, 1, 2], []⟩ ⟨[0, 1], []⟩
    ⟨[-9999, -9999], [("units", AttrValue.other)]⟩ ⟨[-9999, 3], []⟩ rfl rfl rfl rfl

/-- C6 (code behaviour at the failing input): with zero glob matches the
script still prepares the target store and finalizes it — the trace is
[prepareTarget, finalizeTarget] with zero stored chunks — and no run of
the script, on any input, ever emits an EnumerationError: no emptiness
validation exists in the code, contradicting the claim that the run
aborts with EnumerationError before any write. -/
theorem C6_zero_inputs_still_writes :
    scriptRun [] 10 = [RunEvent.prepareTarget, RunEvent.finalizeTarget] ∧
    RunEvent.prepareTarget ∈ scriptRun [] 10 ∧
    ∀ (ms : List String) (k : ℕ), RunEvent.enumerationError ∉ scriptRun ms k := by
  refine ⟨rfl, by decide, ?_⟩
  intro ms k
  simp [scriptRun]

/-! ### Chunk planner contract (C8, C9) -/

/-- C8 (spec-modelled chunk planner): for every input sequence and every
positive inputs_per_chunk k, the plan has exactly ceil(L / k) =
(L + k - 1) / k groups, every group other than the last has length
exactly k, concatenating the groups in order reproduces the input exactly,
and 23 inputs with k = 10 produce the group sizes [10, 10, 3]. -/
theorem C8_chunk_partition {α : Type} (xs : List α) (k : ℕ) (hk : 0 < k) :
    (chunkPlan k xs).length = (xs.length + k - 1) / k ∧
    (∀ (i : ℕ) (h : i < (chunkPlan k xs).length), i + 1 < (chunkPlan k xs).length →
      ((chunkPlan k xs).get ⟨i, h⟩).length = k) ∧
    (chunkPlan k xs).flatten = xs ∧
    (chunkPlan 10 (List.range 23)).map List.length = [10, 10, 3] :=
  ⟨chunkPlan_length k hk xs.length xs le_rfl,
    fun i h hs => chunkPlan_get_length k hk xs.length xs le_rfl i h hs,
    chunkPlan_flatten k xs.length xs le_rfl, by decide⟩

/-- Witness for C8 with 5 inputs and k = 2. -/
theorem C8_chunk_partition_witness :
    (chunkPlan 2 (List.range 5)).length = ((List.range 5).length + 2 - 1) / 2 ∧
    (∀ (i : ℕ) (h : i < (chunkPlan 2 (List.range 5)).length),
      i + 1 < (chunkPlan 2 (List.range 5)).length →
      ((chunkPlan 2 (List.range 5)).get ⟨i, h⟩).length = 2) ∧
    (chunkPlan 2 (List.range 5)).flatten = List.range 5 ∧
    (chunkPlan 10 (List.range 23)).map List.length = [10, 10, 3] :=
  C8_chunk_partition (List.range 5) 2 (by decide)

theorem recordOffset_formula {α : Type} (k nitems : ℕ) (hk : 0 < k) (xs : List α) :
    ∀ i, i < (chunkPlan k xs).length → recordOffset k nitems xs i = i * k * nitems := by
  intro i
  induction i with
  | zero => intro _; simp [recordOffset]
  | succ j ih =>
    intro h
    have hj : j < (chunkPlan k xs).length := Nat.lt_of_succ_lt h
    have hjm : j < ((chunkPlan k xs).map List.length).length := by
      rw [List.length_map]; exact hj
    have hsum := List.sum_take_succ ((chunkPlan k xs).map List.length) j hjm
    have hlen : ((chunkPlan k xs).map List.length)[j] = k := by
      rw [List.getElem_map]
      have hget := chunkPlan_get_length k hk xs.length xs le_rfl j hj h
      rw [List.get_eq_getElem] at hget
      exact hget
    have hih := ih hj
    rw [recordOffset] at hih ⊢
    rw [hsum, hlen, Nat.mul_add, hih]
    ring

/-- C9 (spec-modelled chunk planner): the record offset of each group into
the logical concatenated time axis — the records contributed by all
earlier groups — equals ordinal x inputs_per_chunk x items_per_file;
offsets are strictly increasing across ordinals and each group's offset
range [offset, offset + size x items_per_file) ends before the next
group's offset begins. -/
theorem C9_offsets {α : Type} (xs : List α) (k nitems : ℕ) (hk : 0 < k)
    (hn : 0 < nitems) :
    (∀ i, i < (chunkPlan k xs).length →
      recordOffset k nitems xs i = i * k * nitems) ∧
    (∀ i j, i < j → j < (chunkPlan k xs).length →
      recordOffset k nitems xs i < recordOffset k nitems xs j) ∧
    (∀ (i j : ℕ) (hi : i < (chunkPlan k xs).length), i < j →
      j < (chunkPlan k xs).length →
      recordOffset k nitems xs i + ((chunkPlan k xs).get ⟨i, hi⟩).length * nitems
        ≤ recordOffset k nitems xs j) := by
  refine ⟨recordOffset_formula k nitems hk xs, ?_, ?_⟩
  · intro i j hij hj
    rw [recordOffset_formula k nitems hk xs i (lt_trans hij hj),
      recordOffset_formula k nitems hk xs j hj]
    have hkn : 0 < k * nitems := Nat.mul_pos hk hn
    calc i * k * nitems = i * (k * nitems) := by ring
      _ < j * (k * nitems) := (mul_lt_mul_right hkn).mpr hij
      _ = j * k * nitems := by ring
  · intro i j hi hij hj
    have hsize : ((chunkPlan k xs).get ⟨i, hi⟩).length ≤ k :=
      (chunkPlan_mem_length k hk xs.length xs le_rfl _ (List.get_mem _ _ _)).2
    rw [recordOffset_formula k nitems hk xs i hi,
      recordOffset_formula k nitems hk xs j hj]
    calc i * k * nitems + ((chunkPlan k xs).get ⟨i, hi⟩).length * nitems
        ≤ i * k * nitems + k * nitems :=
          Nat.add_le_add_left (Nat.mul_le_mul_right nitems hsize) _
      _ = (i + 1) * (k * nitems) := by ring
      _ ≤ j * (k * nitems) := Nat.mul_le_mul_right (k * nitems) hij
      _ = j * k * nitems := by ring

/-- Witness for C9: the 23-file, k = 10, one-record-per-file scenario
(offsets 0, 10, 20 in file units). -/
theorem C9_offsets_witness :
    (∀ i, i < (chunkPlan 10 (List.range 23)).length →
      recordOffset 10 1 (List.range 23) i = i * 10 * 1) ∧
    (∀ i j, i < j → j < (chunkPlan 10 (List.range 23)).length →
      recordOffset 10 1 (List.range 23) i < recordOffset 10 1 (List.range 23) j) ∧
    (∀ (i j : ℕ) (hi : i < (chunkPlan 10 (List.range 23)).length), i < j →
      j < (chunkPlan 10 (List.range 23)).length →
      recordOffset 10 1 (List.range 23) i
        + ((chunkPlan 10 (List.range 23)).get ⟨i, hi⟩).length * 1
        ≤ recordOffset 10 1 (List.range 23) j) :=
  C9_offsets (List.range 23) 10 1 (by decide) (by decide)
